import Mathlib

/-!
Shallow embedding of the `agentzero` socket manager (`src/agentzero/core.py`)
and verification of the frozen claims about it.

Modelling conventions:
* a zeromq socket handle is a `Nat` identity token (handles are compared by
  identity in the Python dictionaries);
* the Python `OrderedDict`s (`self.sockets`, `self.addresses`,
  `self.registry`) and the `zmq.Poller` registration table are association
  lists with dictionary update semantics (`setKey`);
* Python exceptions are an `Except AgentErr` result; operations that mutate
  the manager return the mutated manager together with the result, because a
  raised exception does not roll back mutations already performed;
* `time.time()` and `zmq.Poller.poll` are oracles supplied by a `PollEnv`:
  `clock j` is the wall-clock sample taken after the j-th loop iteration of
  `wait_until_ready` (`clock 0` is the `start` sample) and `polls k` is the
  snapshot returned by the k-th invocation of the poll primitive.
-/

namespace AgentZero

/-- Association-list lookup, first match wins (Python `dict.get`). -/
def lookupKey {α β : Type} [DecidableEq α] : List (α × β) → α → Option β
  | [], _ => none
  | (k, v) :: rest, key => if k = key then some v else lookupKey rest key

/-- Dictionary assignment `d[k] = v`: update in place if the key exists,
append otherwise (OrderedDict keeps the original position on update). -/
def setKey {α β : Type} [DecidableEq α] : List (α × β) → α → β → List (α × β)
  | [], key, v => [(key, v)]
  | (k, w) :: rest, key, v =>
      if k = key then (key, v) :: rest else (k, w) :: setKey rest key v

/-- Dictionary removal `d.pop(k, None)`: drop every entry stored under `k`
(entries are unique in all the dictionaries the manager maintains). -/
def removeKey {α β : Type} [DecidableEq α] (d : List (α × β)) (key : α) : List (α × β) :=
  d.filter (fun p => p.1 ≠ key)

/-- Number of entries a dictionary holds under a key. -/
def countKey {α β : Type} [DecidableEq α] : List (α × β) → α → Nat
  | [], _ => 0
  | (k, _) :: rest, key => (if k = key then 1 else 0) + countKey rest key

/-- Identity token of a transport endpoint (`context.socket(...)` result). -/
abbrev SocketHandle := Nat

/-- Interest mask `zmq.POLLIN`. -/
def POLLIN : Nat := 1

/-- Interest mask `zmq.POLLOUT`. -/
def POLLOUT : Nat := 2

/-- Exceptions of `agentzero.errors` plus Python `TypeError`, as raised by
`SocketManager`. -/
inductive AgentErr where
  | socketNotFound (name : String)
  | socketAlreadyExists (name : String)
  | socketBindError
  | socketConnectError
  | typeError
deriving DecidableEq, Repr

/-- State of a `SocketManager` instance (`core.py`, `__init__`):
`sockets`, `addresses` and `registry` are its `OrderedDict`s, `pollerRegs`
is the registration table of `self.poller`, `nextId` is the supply of fresh
socket identity tokens, and `closed` records handles on which the transport
`close()` was invoked (the handle itself stays in `sockets`). -/
structure Manager where
  sockets : List (String × SocketHandle)
  addresses : List (String × String)
  pollerRegs : List (SocketHandle × Nat)
  registry : List (SocketHandle × Nat)
  nextId : Nat
  closed : List SocketHandle
deriving DecidableEq, Repr

/-- Freshly constructed manager (`SocketManager.__init__`). -/
def Manager.init : Manager :=
  { sockets := [], addresses := [], pollerRegs := [], registry := []
    nextId := 0, closed := [] }

/-- Embedding of `SocketManager.get_by_name` (core.py lines 657-669):
raise `SocketNotFound` when the name is absent, otherwise return the stored
handle — whether or not that handle was already closed. -/
def get_by_name (mgr : Manager) (name : String) : Except AgentErr SocketHandle :=
  match lookupKey mgr.sockets name with
  | none => .error (.socketNotFound name)
  | some s => .ok s

/-- Embedding of `SocketManager.create` (core.py lines 671-685): refuse a
name already registered, otherwise allocate a fresh handle, store it, and
set its identity option (the option itself is not part of the state we
track). The `socket_type` argument only parametrises the transport call. -/
def create (mgr : Manager) (name : String) (_socket_type : Nat) :
    Manager × Except AgentErr SocketHandle :=
  match lookupKey mgr.sockets name with
  | some _ => (mgr, .error (.socketAlreadyExists name))
  | none =>
      let h := mgr.nextId
      let mgr1 := { mgr with sockets := setKey mgr.sockets name h, nextId := mgr.nextId + 1 }
      (mgr1, .ok h)

/-- Embedding of `SocketManager.register_socket` (core.py lines 704-718):
when the handle is absent from `self.registry`, register it with the poller
and record the mask; otherwise do nothing. -/
def register_socket (mgr : Manager) (socket : SocketHandle) (polling_mechanism : Nat) : Manager :=
  match lookupKey mgr.registry socket with
  | some _ => mgr
  | none =>
      { mgr with
        pollerRegs := setKey mgr.pollerRegs socket polling_mechanism
        registry := setKey mgr.registry socket polling_mechanism }

/-- Embedding of `SocketManager.close` (core.py lines 454-483): the first
statement is `self.get_by_name(socket_name)`, which raises `SocketNotFound`
for an absent name (the `if not socket: return` guard is unreachable since
`get_by_name` never returns a falsy value). For a present name it
unregisters the handle from the poller (tolerating `KeyError`), removes the
address-book entry and closes the handle — but never removes the name from
`self.sockets`. -/
def close (mgr : Manager) (socket_name : String) : Manager × Except AgentErr Unit :=
  match lookupKey mgr.sockets socket_name with
  | none => (mgr, .error (.socketNotFound socket_name))
  | some s =>
      let mgr1 :=
        { mgr with
          pollerRegs := removeKey mgr.pollerRegs s
          addresses := removeKey mgr.addresses socket_name
          closed := s :: mgr.closed }
      (mgr1, .ok ())

/-- Embedding of `SocketManager.disconnect` (core.py lines 376-411): it
begins with `self.get_by_name(socket_name)`, which raises `SocketNotFound`
for an absent name (the `if not socket: return False` guard is
unreachable). For a present name it pops the address, issues the transport
`socket.disconnect(address)` only when an address was recorded, drops the
poller bookkeeping and returns `True`. The second component lists the
transport-level disconnect calls performed. -/
def disconnect (mgr : Manager) (socket_name : String) :
    Manager × List (SocketHandle × String) × Except AgentErr Bool :=
  match lookupKey mgr.sockets socket_name with
  | none => (mgr, [], .error (.socketNotFound socket_name))
  | some s =>
      let addrOpt := lookupKey mgr.addresses socket_name
      let calls := match addrOpt with
        | some a => [(s, a)]
        | none => []
      let mgr1 :=
        { mgr with
          addresses := removeKey mgr.addresses socket_name
          registry := removeKey mgr.registry s
          pollerRegs := removeKey mgr.pollerRegs s }
      (mgr1, calls, .ok true)

/-- Outcome oracle for the transport layer: whether `socket.connect(addr)`
or `socket.bind(addr)` raises `ZMQError` for a given name/address pair. -/
structure TransportEnv where
  connectFails : String → String → Bool
  bindFails : String → String → Bool

/-- Embedding of `SocketManager.connect` (core.py lines 413-452): reject an
empty address, record the address in the address book, look the handle up
(raising `SocketNotFound` if absent), register it with the poller, flush
with a zero-timeout engage, then attempt the transport connect; a transport
failure is re-raised as `SocketConnectError` with all earlier bookkeeping
left in place. -/
def connect (env : TransportEnv) (mgr : Manager) (socket_name address : String)
    (polling_mechanism : Nat) : Manager × Except AgentErr SocketHandle :=
  if address = "" then (mgr, .error .socketConnectError)
  else
    let mgr1 := { mgr with addresses := setKey mgr.addresses socket_name address }
    match lookupKey mgr1.sockets socket_name with
    | none => (mgr1, .error (.socketNotFound socket_name))
    | some s =>
        let mgr2 := register_socket mgr1 s polling_mechanism
        if env.connectFails socket_name address then (mgr2, .error .socketConnectError)
        else (mgr2, .ok s)

/-- Embedding of `SocketManager.bind` (core.py lines 485-521): identical
shape to `connect`, raising `SocketBindError` instead. -/
def bind (env : TransportEnv) (mgr : Manager) (socket_name address : String)
    (polling_mechanism : Nat) : Manager × Except AgentErr SocketHandle :=
  if address = "" then (mgr, .error .socketBindError)
  else
    let mgr1 := { mgr with addresses := setKey mgr.addresses socket_name address }
    match lookupKey mgr1.sockets socket_name with
    | none => (mgr1, .error (.socketNotFound socket_name))
    | some s =>
        let mgr2 := register_socket mgr1 s polling_mechanism
        if env.bindFails socket_name address then (mgr2, .error .socketBindError)
        else (mgr2, .ok s)

/-- Oracles for the readiness engine: `polls k` is the snapshot the poll
primitive returns on its k-th invocation, `clock j` is the j-th wall-clock
sample taken by `wait_until_ready` (`clock 0` is `start`). -/
structure PollEnv where
  polls : Nat → List (SocketHandle × Nat)
  clock : Nat → Nat

/-- Embedding of `SocketManager.engage` (core.py lines 720-729): one call
to the poll primitive, returning the readiness snapshot; the timeout only
bounds how long the transport may wait and does not influence which
snapshot the oracle yields. -/
def engage (env : PollEnv) (pollIdx : Nat) (_timeout : Nat) : List (SocketHandle × Nat) :=
  env.polls pollIdx

/-- Embedding of `SocketManager.ready` (core.py lines 614-629): look the
endpoint up by name (raising `SocketNotFound` if absent), take one poll
snapshot, pop this endpoint's readiness mask out of it, and return the
endpoint only when that mask is exactly equal to the requested one. -/
def ready (env : PollEnv) (mgr : Manager) (name : String) (polling_mechanism : Nat)
    (pollIdx : Nat) (timeout : Nat) : Except AgentErr (Option SocketHandle) :=
  match get_by_name mgr name with
  | .error e => .error e
  | .ok socket =>
      let available := lookupKey (engage env pollIdx timeout) socket
      if available = some polling_mechanism then .ok (some socket) else .ok none

/-- Loop body of `SocketManager.wait_until_ready` (core.py lines 631-655).
Iteration `i` runs only while `clock i - start < timeout`; it performs
`engage(polling_timeout)` (poll call `2*i`, result discarded) and
`ready(name, mask, timeout)` (poll call `2*i+1`), then samples the clock.
The result pairs the returned endpoint (or `none` on timeout) with the
number of iterations performed; each iteration makes exactly two poll
calls. `fuel` only bounds the recursion: whenever the clock is strictly
increasing, `fuel = timeout + 1` is never exhausted (see
`wait_until_ready_go_fuel_irrelevant`). -/
def wait_until_ready_go (env : PollEnv) (mgr : Manager) (name : String)
    (polling_mechanism : Nat) (timeout start : Nat) :
    Nat → Nat → Except AgentErr (Option SocketHandle × Nat)
  | i, 0 => .ok (none, i)
  | i, fuel + 1 =>
      if env.clock i - start < timeout then
        match ready env mgr name polling_mechanism (2 * i + 1) timeout with
        | .error e => .error e
        | .ok (some s) => .ok (some s, i + 1)
        | .ok none => wait_until_ready_go env mgr name polling_mechanism timeout start (i + 1) fuel
      else .ok (none, i)

/-- Embedding of `SocketManager.wait_until_ready` (core.py lines 631-655)
with the `timeout`/`polling_timeout` defaults already resolved. `start` is
the clock sample taken on entry, and the loop runs as in
`wait_until_ready_go` starting at iteration 0. -/
def wait_until_ready (env : PollEnv) (mgr : Manager) (name : String)
    (polling_mechanism : Nat) (timeout : Nat) (_polling_timeout : Nat) :
    Except AgentErr (Option SocketHandle × Nat) :=
  wait_until_ready_go env mgr name polling_mechanism timeout (env.clock 0) 0 (timeout + 1)

/-- Observable outcome of one `send_safe` call: the boolean result, the
arguments the serializer's `pack` was invoked on, and the frames handed to
the transport `socket.send`. -/
structure SendOutcome (Data Payload : Type) where
  result : Bool
  packCalls : List Data
  sentFrames : List Payload
deriving DecidableEq, Repr

/-- Embedding of `SocketManager.send_safe` (core.py lines 107-135): wait
for write-readiness via `wait_until_ready`; if no endpoint became ready,
return `False` having performed no serialization and no send; otherwise
serialize the data with the backend's `pack` and perform one single-frame
send, returning `True`. -/
def send_safe {Data Payload : Type} (env : PollEnv) (mgr : Manager)
    (pack : Data → Payload) (name : String) (data : Data)
    (timeout polling_timeout : Nat) : Except AgentErr (SendOutcome Data Payload) :=
  match wait_until_ready env mgr name POLLOUT timeout polling_timeout with
  | .error e => .error e
  | .ok (none, _) => .ok ⟨false, [], []⟩
  | .ok (some _, _) => .ok ⟨true, [data], [pack data]⟩

/-- Python-3 value passed as the `topic` argument of `recv_event_safe`:
a unicode string, a bytes value, `None`, `False`, or some other object. -/
inductive PyVal where
  | pyStr (s : String)
  | pyBytes (b : String)
  | pyNone
  | pyFalse
  | pyOther
deriving DecidableEq, Repr

/-- Python truthiness of a topic value (empty strings and empty bytes are
falsy, as are `None` and `False`). -/
def pyTruthy : PyVal → Bool
  | .pyStr s => s ≠ ""
  | .pyBytes b => b ≠ ""
  | .pyNone => false
  | .pyFalse => false
  | .pyOther => true

/-- Python-3 `isinstance(v, bytes)`: only bytes values qualify; in
particular the unicode literal produced by `topic or ''` (the module has
`from __future__ import unicode_literals`) is not bytes. -/
def isinstance_bytes : PyVal → Bool
  | .pyBytes _ => true
  | _ => false

/-- Event value as produced by the receive side (core.py lines 825-844):
an immutable (topic, data) pair. -/
structure EventM (Data : Type) where
  topic : String
  data : Data
deriving DecidableEq, Repr

/-- Embedding of `SocketManager.recv_event_safe` (core.py lines 161-218):
first `topic = topic or ''` replaces a falsy topic by the unicode empty
string, then the guard `isinstance(topic, bytes)` raises `TypeError` when
the (possibly replaced) topic is not a bytes value. Past the guard it sets
the subscription filter via `set_topic` (which looks the socket up and can
raise `SocketNotFound`), waits for read-readiness, and on success performs
a two-frame receive and unpacks the payload into an event. The returned
list records the subscription filters that were set. -/
def recv_event_safe {Data : Type} (env : PollEnv)
    (recvFrames : SocketHandle → String × String) (unpack : String → Data)
    (mgr : Manager) (name : String) (topic : PyVal)
    (timeout polling_timeout : Nat) :
    Except AgentErr (Option (EventM Data) × List PyVal) :=
  let t := if pyTruthy topic then topic else .pyStr ""
  if isinstance_bytes t then
    match get_by_name mgr name with
    | .error e => .error e
    | .ok _ =>
        match wait_until_ready env mgr name POLLIN timeout polling_timeout with
        | .error e => .error e
        | .ok (none, _) => .ok (none, [t])
        | .ok (some s, _) =>
            let frames := recvFrames s
            .ok (some ⟨frames.1, unpack frames.2⟩, [t])
  else .error .typeError

/-! ### Concrete states and environments used to evaluate the model -/

/-- Manager holding a single endpoint named `a` (handle 0), as produced by
`create` on a fresh manager. -/
def mgrA : Manager := (create Manager.init "a" 1).1

/-- Poll oracle that never reports any endpoint ready; the clock advances
one unit per sample. -/
def envIdle : PollEnv := ⟨fun _ => [], fun j => j⟩

/-- Poll oracle that always reports handle 0 exactly read-ready. -/
def envIn : PollEnv := ⟨fun _ => [(0, POLLIN)], fun j => j⟩

/-- Poll oracle that always reports handle 0 exactly write-ready. -/
def envOut : PollEnv := ⟨fun _ => [(0, POLLOUT)], fun j => j⟩

/-- Poll oracle that always reports handle 0 simultaneously read- and
write-ready (the mask is the strict superset `POLLIN ||| POLLOUT` of either
single interest). -/
def envBoth : PollEnv := ⟨fun _ => [(0, POLLIN + POLLOUT)], fun j => j⟩

/-- Transport oracle on which every connect and every bind attempt fails
with the transport error. -/
def envFailTransport : TransportEnv := ⟨fun _ _ => true, fun _ _ => true⟩

/-! ### Dictionary lemmas -/

theorem lookupKey_setKey_self {α β : Type} [DecidableEq α] (d : List (α × β)) (k : α) (v : β) :
    lookupKey (setKey d k v) k = some v := by
  induction d with
  | nil => simp [setKey, lookupKey]
  | cons p rest ih =>
      obtain ⟨a, b⟩ := p
      by_cases h : a = k
      · subst h
        simp [setKey, lookupKey]
      · simp [setKey, lookupKey, h, ih]

theorem lookupKey_setKey_ne {α β : Type} [DecidableEq α] (d : List (α × β)) (k k' : α) (v : β)
    (h : k' ≠ k) : lookupKey (setKey d k v) k' = lookupKey d k' := by
  have hk : k ≠ k' := Ne.symm h
  induction d with
  | nil => simp [setKey, lookupKey, hk]
  | cons p rest ih =>
      obtain ⟨a, b⟩ := p
      by_cases ha : a = k
      · subst ha
        simp [setKey, lookupKey, hk]
      · simp [setKey, lookupKey, ha, ih]

theorem countKey_setKey_self {α β : Type} [DecidableEq α] (d : List (α × β)) (k : α) (v : β) :
    countKey (setKey d k v) k = max 1 (countKey d k) := by
  induction d with
  | nil => simp [setKey, countKey]
  | cons p rest ih =>
      obtain ⟨a, b⟩ := p
      by_cases h : a = k
      · subst h
        simp [setKey, countKey]
      · simp [setKey, countKey, h, ih]

/-! ### Clock lemmas -/

theorem clock_lower (env : PollEnv) (hmono : ∀ j, env.clock j < env.clock (j + 1)) :
    ∀ i : Nat, env.clock 0 + i ≤ env.clock i := by
  intro i
  induction i with
  | zero => simp
  | succ n ih =>
      have := hmono n
      omega

theorem clock_le_of_le (env : PollEnv) (hmono : ∀ j, env.clock j < env.clock (j + 1))
    {i j : Nat} (h : i ≤ j) : env.clock i ≤ env.clock j := by
  induction h with
  | refl => exact le_refl _
  | step _ ih => exact ih.trans (le_of_lt (hmono _))

/-! ### Readiness-loop lemmas -/

theorem ready_eq (env : PollEnv) (mgr : Manager) (name : String) (mask k timeout : Nat)
    (s : SocketHandle) (hs : lookupKey mgr.sockets name = some s) :
    ready env mgr name mask k timeout =
      .ok (if lookupKey (env.polls k) s = some mask then some s else none) := by
  simp only [ready, get_by_name, hs, engage]
  by_cases h : lookupKey (env.polls k) s = some mask
  · simp [h]
  · simp [h]

theorem wait_go_zero (env : PollEnv) (mgr : Manager) (name : String)
    (mask timeout start i : Nat) :
    wait_until_ready_go env mgr name mask timeout start i 0 = .ok (none, i) := rfl

theorem wait_go_succ (env : PollEnv) (mgr : Manager) (name : String)
    (mask timeout start i fuel : Nat) :
    wait_until_ready_go env mgr name mask timeout start i (fuel + 1) =
      if env.clock i - start < timeout then
        match ready env mgr name mask (2 * i + 1) timeout with
        | .error e => .error e
        | .ok (some s) => .ok (some s, i + 1)
        | .ok none => wait_until_ready_go env mgr name mask timeout start (i + 1) fuel
      else .ok (none, i) := rfl

/-- Main invariant of the `wait_until_ready` loop: starting at iteration `i`
with enough fuel, the loop terminates with a result `r` and a final
iteration count `n`; when `r` is `none` the wall-clock timeout has elapsed
by sample `n` and every ready-check performed failed, and when `r` is
`some x` the endpoint is returned exactly at the first iteration whose
ready-check succeeded. -/
theorem wait_go_spec (env : PollEnv) (mgr : Manager) (name : String)
    (mask timeout : Nat) (s : SocketHandle)
    (hs : lookupKey mgr.sockets name = some s)
    (hmono : ∀ j, env.clock j < env.clock (j + 1)) :
    ∀ fuel i, timeout ≤ fuel + i →
      ∃ r n,
        wait_until_ready_go env mgr name mask timeout (env.clock 0) i fuel = .ok (r, n) ∧
        i ≤ n ∧
        (r = none →
          timeout ≤ env.clock n - env.clock 0 ∧
          ∀ j, i ≤ j → j < n → lookupKey (env.polls (2 * j + 1)) s ≠ some mask) ∧
        (∀ x, r = some x → x = s ∧ i < n ∧
          lookupKey (env.polls (2 * (n - 1) + 1)) s = some mask ∧
          ∀ j, i ≤ j → j < n - 1 → lookupKey (env.polls (2 * j + 1)) s ≠ some mask) := by
  intro fuel
  induction fuel with
  | zero =>
      intro i hle
      refine ⟨none, i, wait_go_zero env mgr name mask timeout (env.clock 0) i, le_refl i, ?_, ?_⟩
      · intro _
        have h1 := clock_lower env hmono i
        constructor
        · omega
        · intro j hij hji
          omega
      · intro x hx
        exact absurd hx (by simp)
  | succ fuel ih =>
      intro i hle
      rw [wait_go_succ, ready_eq env mgr name mask (2 * i + 1) timeout s hs]
      by_cases hcond : env.clock i - env.clock 0 < timeout
      · rw [if_pos hcond]
        by_cases hhit : lookupKey (env.polls (2 * i + 1)) s = some mask
        · rw [if_pos hhit]
          refine ⟨some s, i + 1, rfl, Nat.le_succ i, ?_, ?_⟩
          · intro h
            exact absurd h (by simp)
          · intro x hx
            have hxs : x = s := by
              injection hx with h
              exact h.symm
            refine ⟨hxs, Nat.lt_succ_self i, ?_, ?_⟩
            · simpa using hhit
            · intro j hij hji
              omega
        · rw [if_neg hhit]
          obtain ⟨r, n, heq, hin, hnone, hsome⟩ := ih (i + 1) (by omega)
          refine ⟨r, n, heq, by omega, ?_, ?_⟩
          · intro hr
            obtain ⟨helapsed, hfail⟩ := hnone hr
            refine ⟨helapsed, ?_⟩
            intro j hij hji
            rcases Nat.eq_or_lt_of_le hij with h | h
            · subst h
              exact hhit
            · exact hfail j h hji
          · intro x hx
            obtain ⟨hxs, hlt, hhitn, hfail⟩ := hsome x hx
            refine ⟨hxs, by omega, hhitn, ?_⟩
            intro j hij hji
            rcases Nat.eq_or_lt_of_le hij with h | h
            · subst h
              exact hhit
            · exact hfail j h hji
      · rw [if_neg hcond]
        refine ⟨none, i, rfl, le_refl i, ?_, ?_⟩
        · intro _
          constructor
          · omega
          · intro j hij hji
            omega
        · intro x hx
          exact absurd hx (by simp)

/-- Top-level characterisation of `wait_until_ready` for a registered name,
an advancing clock and a positive timeout: at least one loop iteration runs
(each iteration performs one `engage(polling_timeout)` call followed by the
poll inside `ready`), a `none` result means the wall-clock timeout elapsed
with every ready-check failing, and a returned endpoint is the named one,
delivered at the first iteration whose ready-check succeeded. -/
theorem wait_until_ready_spec (env : PollEnv) (mgr : Manager) (name : String)
    (mask timeout ptimeout : Nat) (s : SocketHandle)
    (hs : lookupKey mgr.sockets name = some s)
    (hmono : ∀ j, env.clock j < env.clock (j + 1))
    (hpos : 0 < timeout) :
    ∃ r n,
      wait_until_ready env mgr name mask timeout ptimeout = .ok (r, n) ∧
      1 ≤ n ∧
      (r = none →
        timeout ≤ env.clock n - env.clock 0 ∧
        ∀ j, j < n → lookupKey (env.polls (2 * j + 1)) s ≠ some mask) ∧
      (∀ x, r = some x → x = s ∧
        lookupKey (env.polls (2 * (n - 1) + 1)) s = some mask ∧
        ∀ j, j < n - 1 → lookupKey (env.polls (2 * j + 1)) s ≠ some mask) := by
  obtain ⟨r, n, heq, _, hnone, hsome⟩ :=
    wait_go_spec env mgr name mask timeout s hs hmono (timeout + 1) 0 (by omega)
  refine ⟨r, n, heq, ?_, ?_, ?_⟩
  · cases r with
    | none =>
        obtain ⟨helapsed, _⟩ := hnone rfl
        by_contra hn
        have hn0 : n = 0 := by omega
        subst hn0
        simp at helapsed
        omega
    | some x =>
        have := (hsome x rfl).2.1
        omega
  · intro hr
    obtain ⟨helapsed, hfail⟩ := hnone hr
    exact ⟨helapsed, fun j hj => hfail j (Nat.zero_le j) hj⟩
  · intro x hx
    obtain ⟨hxs, _, hhit, hfail⟩ := hsome x hx
    exact ⟨hxs, hhit, fun j hj => hfail j (Nat.zero_le j) hj⟩

/-- When the poll oracle never reports the requested mask for the endpoint,
the loop always ends with `none`. -/
theorem wait_go_never (env : PollEnv) (mgr : Manager) (name : String)
    (mask timeout : Nat) (s : SocketHandle)
    (hs : lookupKey mgr.sockets name = some s)
    (hnever : ∀ k, lookupKey (env.polls k) s ≠ some mask) :
    ∀ fuel i, ∃ n,
      wait_until_ready_go env mgr name mask timeout (env.clock 0) i fuel = .ok (none, n) := by
  intro fuel
  induction fuel with
  | zero =>
      intro i
      exact ⟨i, wait_go_zero env mgr name mask timeout (env.clock 0) i⟩
  | succ fuel ih =>
      intro i
      rw [wait_go_succ, ready_eq env mgr name mask (2 * i + 1) timeout s hs]
      by_cases hcond : env.clock i - env.clock 0 < timeout
      · rw [if_pos hcond, if_neg (hnever (2 * i + 1))]
        exact ih (i + 1)
      · rw [if_neg hcond]
        exact ⟨i, rfl⟩

/-! ### Claims -/

/-- C1 counterexample: at the concrete call `wait_until_ready` with
`timeout = 0` and `polling_timeout = 1000` — a call whose `timeout` is
smaller than its `polling_timeout` — the loop guard `current - start <
timeout` is false immediately, so the call returns nothing after zero loop
iterations, i.e. zero `engage` calls, refuting "at least one poll attempt
is still performed". -/
theorem c1_counterexample :
    wait_until_ready envIdle mgrA "a" POLLIN 0 1000 = .ok (none, 0) ∧ (0 : Nat) < 1000 :=
  ⟨rfl, by omega⟩

/-- C1 (amended): for every call on a registered name with an advancing
clock and a **positive** `timeout` smaller than `polling_timeout`, at least
one loop iteration — hence at least one `engage(polling_timeout)` poll
attempt — is performed; the endpoint is returned as soon as a ready-check
succeeds (no earlier ready-check succeeded), and nothing is returned once
the wall-clock timeout has elapsed. -/
theorem c1_wait_until_ready_min_one_poll (env : PollEnv) (mgr : Manager) (name : String)
    (mask timeout ptimeout : Nat) (s : SocketHandle)
    (hs : lookupKey mgr.sockets name = some s)
    (hmono : ∀ j, env.clock j < env.clock (j + 1))
    (hpos : 0 < timeout) (hlt : timeout < ptimeout) :
    ∃ r n,
      wait_until_ready env mgr name mask timeout ptimeout = .ok (r, n) ∧
      1 ≤ n ∧
      (r = none → timeout ≤ env.clock n - env.clock 0) ∧
      (∀ x, r = some x → x = s ∧
        lookupKey (env.polls (2 * (n - 1) + 1)) s = some mask ∧
        ∀ j, j < n - 1 → lookupKey (env.polls (2 * j + 1)) s ≠ some mask) := by
  obtain ⟨r, n, heq, h1, hnone, hsome⟩ :=
    wait_until_ready_spec env mgr name mask timeout ptimeout s hs hmono hpos
  exact ⟨r, n, heq, h1, fun hr => (hnone hr).1, hsome⟩

/-- Witness for C1: the amended statement evaluated at the concrete
environment `envIn`, manager `mgrA`, `timeout = 1`, `polling_timeout = 2`. -/
theorem c1_wait_until_ready_min_one_poll_witness :
    ∃ r n,
      wait_until_ready envIn mgrA "a" POLLIN 1 2 = .ok (r, n) ∧
      1 ≤ n ∧
      (r = none → 1 ≤ envIn.clock n - envIn.clock 0) ∧
      (∀ x, r = some x → x = 0 ∧
        lookupKey (envIn.polls (2 * (n - 1) + 1)) 0 = some POLLIN ∧
        ∀ j, j < n - 1 → lookupKey (envIn.polls (2 * j + 1)) 0 ≠ some POLLIN) :=
  c1_wait_until_ready_min_one_poll envIn mgrA "a" POLLIN 1 2 0 rfl
    (fun j => Nat.lt_succ_self j) (by omega) (by omega)

/-- C2: for a registered endpoint, `ready` returns the endpoint exactly
when the poll snapshot's mask for it equals the requested mask; whenever
the snapshot holds any different mask — in particular a strict superset of
the requested one — or no entry at all, `ready` returns nothing. -/
theorem c2_ready_exact_mask_only (env : PollEnv) (mgr : Manager) (name : String)
    (mask k timeout : Nat) (s : SocketHandle)
    (hs : lookupKey mgr.sockets name = some s) :
    (ready env mgr name mask k timeout = .ok (some s) ↔
      lookupKey (env.polls k) s = some mask) ∧
    (∀ m', lookupKey (env.polls k) s = some m' → m' ≠ mask →
      ready env mgr name mask k timeout = .ok none) ∧
    (lookupKey (env.polls k) s = none → ready env mgr name mask k timeout = .ok none) := by
  rw [ready_eq env mgr name mask k timeout s hs]
  refine ⟨?_, ?_, ?_⟩
  · by_cases h : lookupKey (env.polls k) s = some mask
    · simp [h]
    · simp [h]
  · intro m' hm' hne
    have h : lookupKey (env.polls k) s ≠ some mask := by
      rw [hm']
      simp [hne]
    simp [h]
  · intro h
    simp [h, POLLIN]

/-- Witness for C2: the statement evaluated on the snapshot reporting
handle 0 as `POLLIN ||| POLLOUT` while `POLLIN` alone is requested: the
iff's right side is false there, so `ready` returns nothing although the
snapshot mask contains the requested interest as a strict subset. -/
theorem c2_ready_exact_mask_only_witness :
    (ready envBoth mgrA "a" POLLIN 0 5 = .ok (some 0) ↔
      lookupKey (envBoth.polls 0) 0 = some POLLIN) ∧
    (∀ m', lookupKey (envBoth.polls 0) 0 = some m' → m' ≠ POLLIN →
      ready envBoth mgrA "a" POLLIN 0 5 = .ok none) ∧
    (lookupKey (envBoth.polls 0) 0 = none → ready envBoth mgrA "a" POLLIN 0 5 = .ok none) :=
  c2_ready_exact_mask_only envBoth mgrA "a" POLLIN 0 5 0 rfl

/-- C3: for a registered endpoint, if the poll oracle never reports it
write-ready, `send_safe` returns `False` with an empty list of `pack`
invocations and no frame sent (no side effects); and whenever it becomes
write-ready within the wall-clock timeout, `send_safe` serializes the data
(one `pack` call), performs a single-frame send of the packed payload, and
returns `True`. -/
theorem c3_send_safe_no_pack_on_timeout {Data Payload : Type} (env : PollEnv) (mgr : Manager)
    (pack : Data → Payload) (name : String) (data : Data) (timeout ptimeout : Nat)
    (s : SocketHandle)
    (hs : lookupKey mgr.sockets name = some s)
    (hmono : ∀ j, env.clock j < env.clock (j + 1)) :
    ((∀ k, lookupKey (env.polls k) s ≠ some POLLOUT) →
      send_safe env mgr pack name data timeout ptimeout = .ok ⟨false, [], []⟩) ∧
    ((∃ j, env.clock j - env.clock 0 < timeout ∧
        lookupKey (env.polls (2 * j + 1)) s = some POLLOUT) →
      send_safe env mgr pack name data timeout ptimeout = .ok ⟨true, [data], [pack data]⟩) := by
  constructor
  · intro hnever
    obtain ⟨n, heq⟩ := wait_go_never env mgr name POLLOUT timeout s hs hnever (timeout + 1) 0
    unfold send_safe wait_until_ready
    rw [heq]
  · rintro ⟨j, hj, hhit⟩
    have hpos : 0 < timeout := by omega
    obtain ⟨r, n, heq, _, hnone, hsome⟩ :=
      wait_until_ready_spec env mgr name POLLOUT timeout ptimeout s hs hmono hpos
    cases r with
    | none =>
        obtain ⟨helapsed, hfail⟩ := hnone rfl
        have hjn : j < n := by
          by_contra hge
          push_neg at hge
          have h2 := clock_le_of_le env hmono hge
          omega
        exact absurd hhit (hfail j hjn)
    | some x =>
        unfold send_safe
        rw [heq]

/-- Witness for C3: the statement evaluated with the always-write-ready
oracle `envOut`, manager `mgrA`, packing strings by length. -/
theorem c3_send_safe_no_pack_on_timeout_witness :
    ((∀ k, lookupKey (envOut.polls k) 0 ≠ some POLLOUT) →
      send_safe envOut mgrA String.length "a" "hi" 1 2 = .ok ⟨false, [], []⟩) ∧
    ((∃ j, envOut.clock j - envOut.clock 0 < 1 ∧
        lookupKey (envOut.polls (2 * j + 1)) 0 = some POLLOUT) →
      send_safe envOut mgrA String.length "a" "hi" 1 2 = .ok ⟨true, ["hi"], [2]⟩) :=
  c3_send_safe_no_pack_on_timeout envOut mgrA String.length "a" "hi" 1 2 0 rfl
    (fun j => Nat.lt_succ_self j)

/-- C4 counterexample: on the concrete manager holding endpoint `a`,
`close "a"` succeeds and marks handle 0 closed, yet `get_by_name "a"`
afterwards still returns the closed handle instead of raising
`SocketNotFound` — `close` never removes the name from `self.sockets`. -/
theorem c4_counterexample :
    (close mgrA "a").2 = .ok () ∧
    (close mgrA "a").1.closed = [0] ∧
    get_by_name (close mgrA "a").1 "a" = .ok 0 :=
  ⟨rfl, rfl, rfl⟩

/-- C4 (amended): `get_by_name` raises `SocketNotFound` exactly for names
that were never stored in the socket registry, and returns the stored
endpoint for every stored name — including names already closed, because
`close` leaves the socket registry unchanged. -/
theorem c4_get_by_name_not_found (mgr : Manager) (name : String) :
    (lookupKey mgr.sockets name = none →
      get_by_name mgr name = .error (.socketNotFound name)) ∧
    (∀ s, lookupKey mgr.sockets name = some s → get_by_name mgr name = .ok s) ∧
    (close mgr name).1.sockets = mgr.sockets := by
  refine ⟨?_, ?_, ?_⟩
  · intro h
    simp [get_by_name, h]
  · intro s h
    simp [get_by_name, h]
  · cases hl : lookupKey mgr.sockets name with
    | none => simp [close, hl]
    | some s => simp [close, hl]

/-- Witness for C4: the amended statement evaluated at `mgrA` and the
absent name `b`. -/
theorem c4_get_by_name_not_found_witness :
    (lookupKey mgrA.sockets "b" = none →
      get_by_name mgrA "b" = .error (.socketNotFound "b")) ∧
    (∀ s, lookupKey mgrA.sockets "b" = some s → get_by_name mgrA "b" = .ok s) ∧
    (close mgrA "b").1.sockets = mgrA.sockets :=
  c4_get_by_name_not_found mgrA "b"

/-- C5: `close` on a name that is not registered is **not** a no-op — its
first statement `self.get_by_name(socket_name)` raises `SocketNotFound`
(the `if not socket: return` guard below it is unreachable). The state is
left unchanged, but an exception escapes, contradicting the claim. -/
theorem c5_close_missing_raises :
    close Manager.init "foobar" = (Manager.init, .error (.socketNotFound "foobar")) := rfl

/-- C6: `disconnect` on a name that was never created raises
`SocketNotFound` instead of returning `False` (first conjunct, evaluated on
the empty manager); on a name that exists without a recorded address it
does return `True` and performs no transport-level disconnect call (second
conjunct: the emitted transport-call list is empty). -/
theorem c6_disconnect_missing_raises :
    disconnect Manager.init "foobar" = (Manager.init, [], .error (.socketNotFound "foobar")) ∧
    disconnect mgrA "a" = (mgrA, [], .ok true) :=
  ⟨rfl, rfl⟩

/-- C7: creating endpoints under two distinct fresh names in sequence
raises nothing (both calls return the new handle), while calling `create`
under a name already registered always returns the `SocketAlreadyExists`
error and leaves the manager — in particular its socket registry —
unchanged. -/
theorem c7_create_duplicate_rejected (mgr : Manager) (n1 n2 : String) (t1 t2 : Nat)
    (hne : n1 ≠ n2)
    (h1 : lookupKey mgr.sockets n1 = none)
    (h2 : lookupKey mgr.sockets n2 = none) :
    ((create mgr n1 t1).2 = .ok mgr.nextId ∧
      (create (create mgr n1 t1).1 n2 t2).2 = .ok (create mgr n1 t1).1.nextId) ∧
    (∀ m name t s, lookupKey m.sockets name = some s →
      create m name t = (m, .error (.socketAlreadyExists name))) := by
  have e1 : create mgr n1 t1 =
      ({ mgr with sockets := setKey mgr.sockets n1 mgr.nextId, nextId := mgr.nextId + 1 },
        .ok mgr.nextId) := by
    simp [create, h1]
  refine ⟨⟨?_, ?_⟩, ?_⟩
  · rw [e1]
  · rw [e1]
    have hl2 : lookupKey (setKey mgr.sockets n1 mgr.nextId) n2 = none := by
      rw [lookupKey_setKey_ne mgr.sockets n1 n2 mgr.nextId (Ne.symm hne)]
      exact h2
    simp [create, hl2]
  · intro m name t s hs
    simp [create, hs]

/-- Witness for C7: the statement evaluated on a fresh manager with the
distinct names `a` and `b`. -/
theorem c7_create_duplicate_rejected_witness :
    ((create Manager.init "a" 1).2 = .ok Manager.init.nextId ∧
      (create (create Manager.init "a" 1).1 "b" 2).2 =
        .ok (create Manager.init "a" 1).1.nextId) ∧
    (∀ m name t s, lookupKey m.sockets name = some s →
      create m name t = (m, .error (.socketAlreadyExists name))) :=
  c7_create_duplicate_rejected Manager.init "a" "b" 1 2 (by decide) rfl rfl

/-- C8: registering an endpoint that is not yet in the registry records it
once; a second registration — even with a different mask — is a complete
no-op, so the endpoint keeps the first mask in both the bookkeeping
registry and the poller table, and appears in the poller table at most
once. -/
theorem c8_register_socket_idempotent (mgr : Manager) (s : SocketHandle) (m1 m2 : Nat)
    (hfresh : lookupKey mgr.registry s = none)
    (hcount : countKey mgr.pollerRegs s ≤ 1) :
    register_socket (register_socket mgr s m1) s m2 = register_socket mgr s m1 ∧
    lookupKey (register_socket (register_socket mgr s m1) s m2).registry s = some m1 ∧
    lookupKey (register_socket (register_socket mgr s m1) s m2).pollerRegs s = some m1 ∧
    countKey (register_socket (register_socket mgr s m1) s m2).pollerRegs s ≤ 1 := by
  have e1 : register_socket mgr s m1 =
      { mgr with
        pollerRegs := setKey mgr.pollerRegs s m1
        registry := setKey mgr.registry s m1 } := by
    simp [register_socket, hfresh]
  have hl : lookupKey (setKey mgr.registry s m1) s = some m1 :=
    lookupKey_setKey_self mgr.registry s m1
  have e2 : register_socket (register_socket mgr s m1) s m2 = register_socket mgr s m1 := by
    rw [e1]
    simp [register_socket, hl]
  refine ⟨e2, ?_, ?_, ?_⟩
  · rw [e2, e1]
    exact hl
  · rw [e2, e1]
    exact lookupKey_setKey_self mgr.pollerRegs s m1
  · rw [e2, e1]
    have hc := countKey_setKey_self mgr.pollerRegs s m1
    simp only [hc]
    omega

/-- Witness for C8: the statement evaluated on a fresh manager, handle 0,
first mask `POLLIN`, second mask `POLLOUT`. -/
theorem c8_register_socket_idempotent_witness :
    register_socket (register_socket Manager.init 0 POLLIN) 0 POLLOUT =
      register_socket Manager.init 0 POLLIN ∧
    lookupKey (register_socket (register_socket Manager.init 0 POLLIN) 0 POLLOUT).registry 0 =
      some POLLIN ∧
    lookupKey (register_socket (register_socket Manager.init 0 POLLIN) 0 POLLOUT).pollerRegs 0 =
      some POLLIN ∧
    countKey (register_socket (register_socket Manager.init 0 POLLIN) 0 POLLOUT).pollerRegs 0 ≤ 1 :=
  c8_register_socket_idempotent Manager.init 0 POLLIN POLLOUT rfl (by decide)

/-- C9: evaluating `recv_event_safe` on the model shows the type guard
raising `TypeError` for the default topic `False`, for `None`, and for the
unicode string topic `"logs"` — the very values its own error message says
it accepts — while only a non-empty bytes topic proceeds (receiving an
event after setting the subscription filter). The guard fails them because
`topic = topic or ''` turns falsy topics into the unicode empty string and
`isinstance(topic, bytes)` then rejects every non-bytes value. -/
theorem c9_recv_event_safe_topic_guard :
    recv_event_safe envIn (fun _ => ("t", "raw")) (fun r => r) mgrA "a" .pyFalse 1 2 =
      .error .typeError ∧
    recv_event_safe envIn (fun _ => ("t", "raw")) (fun r => r) mgrA "a" .pyNone 1 2 =
      .error .typeError ∧
    recv_event_safe envIn (fun _ => ("t", "raw")) (fun r => r) mgrA "a" (.pyStr "") 1 2 =
      .error .typeError ∧
    recv_event_safe envIn (fun _ => ("t", "raw")) (fun r => r) mgrA "a" (.pyStr "logs") 1 2 =
      .error .typeError ∧
    recv_event_safe envIn (fun _ => ("t", "raw")) (fun r => r) mgrA "a" (.pyBytes "logs") 1 2 =
      .ok (some ⟨"t", "raw"⟩, [.pyBytes "logs"]) :=
  ⟨rfl, rfl, rfl, rfl, rfl⟩

/-- C10: for a registered endpoint, a non-empty address and a transport
layer that rejects the operation, `connect` raises `SocketConnectError`
and `bind` raises `SocketBindError`, and in both cases the manager state
carried out of the failed call still holds the new address-book entry and
the poller registration made before the transport attempt — the
bookkeeping is not rolled back. -/
theorem c10_connect_bind_bookkeeping_persists (env : TransportEnv) (mgr : Manager)
    (name addr : String) (mask : Nat) (s : SocketHandle)
    (haddr : addr ≠ "")
    (hs : lookupKey mgr.sockets name = some s)
    (hreg : lookupKey mgr.registry s = none)
    (hcfail : env.connectFails name addr = true)
    (hbfail : env.bindFails name addr = true) :
    (∃ m2, connect env mgr name addr mask = (m2, .error .socketConnectError) ∧
      lookupKey m2.addresses name = some addr ∧
      lookupKey m2.pollerRegs s = some mask ∧
      lookupKey m2.registry s = some mask) ∧
    (∃ m2, bind env mgr name addr mask = (m2, .error .socketBindError) ∧
      lookupKey m2.addresses name = some addr ∧
      lookupKey m2.pollerRegs s = some mask ∧
      lookupKey m2.registry s = some mask) := by
  constructor
  · refine ⟨register_socket { mgr with addresses := setKey mgr.addresses name addr } s mask,
      ?_, ?_, ?_, ?_⟩
    · simp [connect, haddr, hs, hcfail]
    · simp [register_socket, hreg, lookupKey_setKey_self]
    · simp [register_socket, hreg, lookupKey_setKey_self]
    · simp [register_socket, hreg, lookupKey_setKey_self]
  · refine ⟨register_socket { mgr with addresses := setKey mgr.addresses name addr } s mask,
      ?_, ?_, ?_, ?_⟩
    · simp [bind, haddr, hs, hbfail]
    · simp [register_socket, hreg, lookupKey_setKey_self]
    · simp [register_socket, hreg, lookupKey_setKey_self]
    · simp [register_socket, hreg, lookupKey_setKey_self]

/-- Witness for C10: the statement evaluated with the always-failing
transport oracle on `mgrA`. -/
theorem c10_connect_bind_bookkeeping_persists_witness :
    (∃ m2, connect envFailTransport mgrA "a" "tcp://host:1" POLLIN =
        (m2, .error .socketConnectError) ∧
      lookupKey m2.addresses "a" = some "tcp://host:1" ∧
      lookupKey m2.pollerRegs 0 = some POLLIN ∧
      lookupKey m2.registry 0 = some POLLIN) ∧
    (∃ m2, bind envFailTransport mgrA "a" "tcp://host:1" POLLIN =
        (m2, .error .socketBindError) ∧
      lookupKey m2.addresses "a" = some "tcp://host:1" ∧
      lookupKey m2.pollerRegs 0 = some POLLIN ∧
      lookupKey m2.registry 0 = some POLLIN) :=
  c10_connect_bind_bookkeeping_persists envFailTransport mgrA "a" "tcp://host:1" POLLIN 0
    (by decide) rfl rfl rfl rfl

end AgentZero
